import Mathlib

/-
Verification of the CFDI invoice-calculation engine
(`src/utils/taxCalculator.js`, `src/utils/mathUtils.js`,
`src/config/constants.js`) against its natural-language specification.

The JavaScript numbers of the engine are modelled as exact rationals `ℚ`
(the source performs plain double arithmetic; representation drift of
doubles is outside this shallow embedding).  JavaScript exceptions are
modelled with `Except CalcError`, one error constructor per distinct
`throw` site of the engine.  The special values `NaN` / `±Infinity`
that the `round2` guard inspects are modelled by the dedicated type
`JSNum` below.
-/

namespace CFDI

/-- Mirror of `PRECISION_CONFIG` from `src/config/constants.js`. -/
structure PrecisionConfig where
  DECIMAL_PLACES : ℕ
  EPSILON : ℚ

/-- `PRECISION_CONFIG = { DECIMAL_PLACES: 2, EPSILON: Number.EPSILON }`,
with `Number.EPSILON = 2^(-52)` as an exact rational. -/
def PRECISION_CONFIG : PrecisionConfig :=
  { DECIMAL_PLACES := 2, EPSILON := 1 / 2 ^ 52 }

/-- Mirror of `GOAL_SEEK_CONFIG` from `src/config/constants.js`. -/
structure GoalSeekConfig where
  MAX_ITERATIONS : ℕ
  TOLERANCE : ℚ
  SEARCH_RANGE_MULTIPLIER : ℚ
  MAX_ATTEMPTS : ℕ

/-- `GOAL_SEEK_CONFIG = { MAX_ITERATIONS: 80, TOLERANCE: 0.0005,
SEARCH_RANGE_MULTIPLIER: 2000, MAX_ATTEMPTS: 40 }`. -/
def GOAL_SEEK_CONFIG : GoalSeekConfig :=
  { MAX_ITERATIONS := 80
    TOLERANCE := 0.0005
    SEARCH_RANGE_MULTIPLIER := 2000
    MAX_ATTEMPTS := 40 }

/-- One constructor per distinct `throw` site of the engine:
`invalidNumber` for the NaN guards, `nonPositive fieldName` for
`validatePositiveNumber`, `invalidPercentage` for the rate-range check
in `calculatePercentage`, `degenerateRates` for `denominatorTooSmall`,
`goalSeekUnreachable` for `goalSeekTimeout`, and `nullResult` for the
(unreachable) null `bestResult` after the binary-search loop. -/
inductive CalcError where
  | invalidNumber (fieldName : String)
  | nonPositive (fieldName : String)
  | invalidPercentage
  | degenerateRates
  | goalSeekUnreachable
  | nullResult
deriving DecidableEq, Repr

/-- JavaScript `Math.round` on a finite value: round half toward
positive infinity, i.e. `⌊x + 1/2⌋`. -/
def jsRound (x : ℚ) : ℤ := ⌊x + 1 / 2⌋

/-- Mirror of `round2` from `src/utils/mathUtils.js` restricted to
finite inputs: `Math.round((value + PRECISION_CONFIG.EPSILON) * 100) / 100`. -/
def round2 (value : ℚ) : ℚ :=
  (jsRound ((value + PRECISION_CONFIG.EPSILON) * 100) : ℚ) / 100

/-- Mirror of `validatePositiveNumber` from `src/utils/mathUtils.js`.
On a finite rational, `parseFloat` is the identity and the `isNaN`
branch is unreachable; the remaining check throws when `numValue <= 0`
and otherwise returns `true`. -/
def validatePositiveNumber (value : ℚ) (fieldName : String) :
    Except CalcError Bool :=
  if value ≤ 0 then .error (.nonPositive fieldName) else .ok true

/-- Mirror of `calculatePercentage` from `src/utils/mathUtils.js`:
validates the base via `validatePositiveNumber`, rejects a percentage
outside `[0, 1]`, and returns `value * percentage`. -/
def calculatePercentage (value percentage : ℚ) : Except CalcError ℚ := do
  _ ← validatePositiveNumber value "Base value"
  if percentage < 0 ∨ percentage > 1 then .error .invalidPercentage
  else .ok (value * percentage)

/-- JavaScript number domain as seen by the `round2` guard: `NaN`,
the two infinities, or a finite value (modelled exactly as a rational;
there is no signed zero in this model). -/
inductive JSNum where
  | nan
  | posInf
  | negInf
  | num (q : ℚ)
deriving DecidableEq, Repr

/-- JavaScript `isNaN` on a number. -/
def JSNum.isNaN : JSNum → Bool
  | .nan => true
  | _ => false

/-- IEEE-style addition on `JSNum`. -/
def jsAdd : JSNum → JSNum → JSNum
  | .nan, _ => .nan
  | _, .nan => .nan
  | .posInf, .negInf => .nan
  | .negInf, .posInf => .nan
  | .posInf, _ => .posInf
  | _, .posInf => .posInf
  | .negInf, _ => .negInf
  | _, .negInf => .negInf
  | .num a, .num b => .num (a + b)

/-- IEEE-style multiplication on `JSNum`. -/
def jsMul : JSNum → JSNum → JSNum
  | .nan, _ => .nan
  | _, .nan => .nan
  | .posInf, .posInf => .posInf
  | .posInf, .negInf => .negInf
  | .negInf, .posInf => .negInf
  | .negInf, .negInf => .posInf
  | .posInf, .num b => if 0 < b then .posInf else if b < 0 then .negInf else .nan
  | .num a, .posInf => if 0 < a then .posInf else if a < 0 then .negInf else .nan
  | .negInf, .num b => if 0 < b then .negInf else if b < 0 then .posInf else .nan
  | .num a, .negInf => if 0 < a then .negInf else if a < 0 then .posInf else .nan
  | .num a, .num b => .num (a * b)

/-- IEEE-style division on `JSNum` (division by the finite zero of the
model behaves like JavaScript division by `+0`). -/
def jsDiv : JSNum → JSNum → JSNum
  | .nan, _ => .nan
  | _, .nan => .nan
  | .posInf, .posInf => .nan
  | .posInf, .negInf => .nan
  | .negInf, .posInf => .nan
  | .negInf, .negInf => .nan
  | .posInf, .num b => if b < 0 then .negInf else .posInf
  | .negInf, .num b => if b < 0 then .posInf else .negInf
  | .num _, .posInf => .num 0
  | .num _, .negInf => .num 0
  | .num a, .num b =>
    if b = 0 then
      if a = 0 then .nan else if 0 < a then .posInf else .negInf
    else .num (a / b)

/-- JavaScript `Math.round` on the full number domain. -/
def jsMathRound : JSNum → JSNum
  | .nan => .nan
  | .posInf => .posInf
  | .negInf => .negInf
  | .num q => .num (jsRound q : ℚ)

/-- Mirror of `round2` from `src/utils/mathUtils.js` on the full
JavaScript number domain.  The guard is
`typeof value !== 'number' || isNaN(value)`; every `JSNum` has number
type, so only the `isNaN` test remains.  The body is
`Math.round((value + PRECISION_CONFIG.EPSILON) * 100) / 100` with the
IEEE-style propagation of the operations above. -/
def round2JS (value : JSNum) : Except CalcError JSNum :=
  if value.isNaN then .error (.invalidNumber "round2")
  else
    .ok (jsDiv
      (jsMathRound (jsMul (jsAdd value (.num PRECISION_CONFIG.EPSILON)) (.num 100)))
      (.num 100))

/-- The mutable `this.rates` record of a `TaxCalculator` instance. -/
structure RateSet where
  vatRate : ℚ
  incomeTaxRate : ℚ
  vatRetentionFraction : ℚ
deriving DecidableEq, Repr

/-- The `options` argument of the calculation methods. -/
structure CalculationOptions where
  roundPerLine : Bool
deriving DecidableEq, Repr

/-- The object literal returned by `calculateFromSubtotal`
(and, after retagging, by `goalSeekSubtotal`). -/
structure BreakdownResult where
  subtotal : ℚ
  vatRaw : ℚ
  incomeTaxWithheldRaw : ℚ
  vatRetentionRaw : ℚ
  vat : ℚ
  incomeTaxWithheld : ℚ
  vatRetention : ℚ
  netAmount : ℚ
  calculationMethod : String
  options : CalculationOptions
deriving DecidableEq, Repr

/-- A partial rates object as passed to the constructor or to
`updateRates`: `none` models an `undefined` (absent) field. -/
structure PartialRates where
  vatRate : Option ℚ := none
  incomeTaxRate : Option ℚ := none
  vatRetentionFraction : Option ℚ := none
deriving DecidableEq, Repr

namespace TaxCalculator

/-- JavaScript `x || d` for a possibly-absent numeric field: an absent
field and the falsy number `0` both yield the default `d` (the other
falsy number, `NaN`, has no finite-rational counterpart). -/
def jsOrDefault (x : Option ℚ) (d : ℚ) : ℚ :=
  match x with
  | none => d
  | some v => if v = 0 then d else v

/-- Mirror of the `TaxCalculator` constructor (lines 23-29 of
`src/utils/taxCalculator.js`): each field is `rates.field || default`. -/
def constructor (rates : PartialRates) : RateSet :=
  { vatRate := jsOrDefault rates.vatRate 0.16
    incomeTaxRate := jsOrDefault rates.incomeTaxRate 0.10
    vatRetentionFraction := jsOrDefault rates.vatRetentionFraction 0.6666666667 }

/-- Mirror of `updateRates` (lines 187-197): field-wise merge, a field
set to `undefined`/absent is retained, any present value (including 0)
is accepted. -/
def updateRates (rates : RateSet) (newRates : PartialRates) : RateSet :=
  { vatRate := newRates.vatRate.getD rates.vatRate
    incomeTaxRate := newRates.incomeTaxRate.getD rates.incomeTaxRate
    vatRetentionFraction :=
      newRates.vatRetentionFraction.getD rates.vatRetentionFraction }

/-- Mirror of `calculateFromSubtotal` (lines 39-73): validate the
subtotal, compute the three raw lines via `calculatePercentage`
(VAT retention on the VAT amount), optionally round each line, and
return the record with `netAmount` rounded via `round2`. -/
def calculateFromSubtotal (rates : RateSet) (subtotal : ℚ)
    (options : CalculationOptions) : Except CalcError BreakdownResult := do
  _ ← validatePositiveNumber subtotal "Subtotal"
  let vatRaw ← calculatePercentage subtotal rates.vatRate
  let incomeTaxWithheldRaw ← calculatePercentage subtotal rates.incomeTaxRate
  let vatRetentionRaw ← calculatePercentage vatRaw rates.vatRetentionFraction
  let vat := if options.roundPerLine then round2 vatRaw else vatRaw
  let incomeTaxWithheld :=
    if options.roundPerLine then round2 incomeTaxWithheldRaw else incomeTaxWithheldRaw
  let vatRetention :=
    if options.roundPerLine then round2 vatRetentionRaw else vatRetentionRaw
  let netAmount := subtotal + vat - incomeTaxWithheld - vatRetention
  .ok
    { subtotal := subtotal
      vatRaw := vatRaw
      incomeTaxWithheldRaw := incomeTaxWithheldRaw
      vatRetentionRaw := vatRetentionRaw
      vat := vat
      incomeTaxWithheld := incomeTaxWithheld
      vatRetention := vatRetention
      netAmount := round2 netAmount
      calculationMethod := "fromSubtotal"
      options := options }

/-- The local `denominator` of `calculateSubtotalFromNetAlgebraic`
(line 88): `1 + vat - incomeTax - vat * vatRetentionFraction`. -/
def denominator (rates : RateSet) : ℚ :=
  1 + rates.vatRate - rates.incomeTaxRate -
    rates.vatRate * rates.vatRetentionFraction

/-- Mirror of `calculateSubtotalFromNetAlgebraic` (lines 81-98):
validate the target, throw `denominatorTooSmall` when
`|denominator| < 0.000001`, otherwise return `netAmount / denominator`. -/
def calculateSubtotalFromNetAlgebraic (rates : RateSet) (netAmount : ℚ) :
    Except CalcError ℚ := do
  _ ← validatePositiveNumber netAmount "Net amount"
  if |denominator rates| < 0.000001 then .error .degenerateRates
  else .ok (netAmount / denominator rates)

/-- The closure `calculateNetForSubtotal` of `goalSeekSubtotal`
(lines 119-121): the `netAmount` of the breakdown at a subtotal. -/
def netForSubtotal (rates : RateSet) (options : CalculationOptions)
    (subtotal : ℚ) : Except CalcError ℚ := do
  let r ← calculateFromSubtotal rates subtotal options
  .ok r.netAmount

/-- The bracket-widening `while` loop of `goalSeekSubtotal`
(lines 128-141).  `attempts` is the source's counter; the extra `fuel`
argument makes the recursion structural and is started at
`MAX_ATTEMPTS + 1`, so the `attempts > MAX_ATTEMPTS` check always fires
before the fuel runs out (the fuel-0 branch repeats the same
`goalSeekTimeout` error and is unreachable from `goalSeekSubtotal`). -/
def widenLoop (netF : ℚ → Except CalcError ℚ) (target : ℚ) :
    ℕ → ℕ → ℚ → ℚ → ℚ → ℚ → Except CalcError (ℚ × ℚ)
  | 0, _, _, _, _, _ => .error .goalSeekUnreachable
  | fuel + 1, attempts, low, high, nLow, nHigh =>
    if (nLow > target ∧ nHigh > target) ∨ (nLow < target ∧ nHigh < target) then
      if attempts + 1 > GOAL_SEEK_CONFIG.MAX_ATTEMPTS then
        .error .goalSeekUnreachable
      else
        let low2 := max 0
          (low - GOAL_SEEK_CONFIG.SEARCH_RANGE_MULTIPLIER * ((attempts : ℚ) + 1))
        let high2 :=
          high + GOAL_SEEK_CONFIG.SEARCH_RANGE_MULTIPLIER * ((attempts : ℚ) + 1)
        do
          let nLow2 ← netF low2
          let nHigh2 ← netF high2
          widenLoop netF target fuel (attempts + 1) low2 high2 nLow2 nHigh2
    else .ok (low, high)

/-- The binary-search `for` loop of `goalSeekSubtotal` (lines 148-169),
structurally recursive on the number of remaining iterations: evaluate
the midpoint, keep the candidate whose net amount is closest to the
target, stop early within `TOLERANCE`, otherwise narrow the bracket. -/
def searchLoop (calcF : ℚ → Except CalcError BreakdownResult) (target : ℚ) :
    ℕ → ℚ → ℚ → Option BreakdownResult →
    Except CalcError (Option BreakdownResult)
  | 0, _, _, best => .ok best
  | fuel + 1, lo, hi, best => do
    let mid := (lo + hi) / 2
    let result ← calcF mid
    let currentNet := result.netAmount
    let best2 :=
      match best with
      | none => some result
      | some b =>
        if |currentNet - target| < |b.netAmount - target| then some result
        else some b
    if |currentNet - target| < GOAL_SEEK_CONFIG.TOLERANCE then .ok best2
    else if currentNet > target then searchLoop calcF target fuel lo mid best2
    else searchLoop calcF target fuel mid hi best2

/-- Mirror of `goalSeekSubtotal` (lines 107-180): validate the target,
seed with the algebraic guess, bracket `[max(0, guess - R), guess + R]`,
widen until the bracket straddles the target (bounded by
`MAX_ATTEMPTS`), binary-search (bounded by `MAX_ITERATIONS`), then
round the best subtotal to 2 decimals, recompute its breakdown, and
retag it `goalSeek`. -/
def goalSeekSubtotal (rates : RateSet) (targetNetAmount : ℚ)
    (options : CalculationOptions) : Except CalcError BreakdownResult := do
  _ ← validatePositiveNumber targetNetAmount "Target net amount"
  let initialGuess ← calculateSubtotalFromNetAlgebraic rates targetNetAmount
  let low := max 0 (initialGuess - GOAL_SEEK_CONFIG.SEARCH_RANGE_MULTIPLIER)
  let high := initialGuess + GOAL_SEEK_CONFIG.SEARCH_RANGE_MULTIPLIER
  let nLow ← netForSubtotal rates options low
  let nHigh ← netForSubtotal rates options high
  let bracket ← widenLoop (netForSubtotal rates options) targetNetAmount
    (GOAL_SEEK_CONFIG.MAX_ATTEMPTS + 1) 0 low high nLow nHigh
  let best ← searchLoop (fun s => calculateFromSubtotal rates s options)
    targetNetAmount GOAL_SEEK_CONFIG.MAX_ITERATIONS bracket.1 bracket.2 none
  match best with
  | none => .error .nullResult
  | some bestResult => do
    let roundedSubtotal := round2 bestResult.subtotal
    let final ← calculateFromSubtotal rates roundedSubtotal options
    .ok { final with calculationMethod := "goalSeek" }

end TaxCalculator

/-
Helper lemmas shared by the claim theorems below.
-/

open TaxCalculator

/-- Reducing a bind over a successful `Except` computation. -/
theorem exceptBind_ok {ε α β : Type} (a : α) (f : α → Except ε β) :
    (Except.ok a >>= f) = f a := rfl

/-- Reducing a bind over a failed `Except` computation. -/
theorem exceptBind_error {ε α β : Type} (e : ε) (f : α → Except ε β) :
    ((Except.error e : Except ε α) >>= f) = Except.error e := rfl

/-- Inversion of a successful bind. -/
theorem exceptBind_eq_ok {ε α β : Type} {x : Except ε α} {f : α → Except ε β}
    {r : β} (h : (x >>= f) = Except.ok r) :
    ∃ a, x = Except.ok a ∧ f a = Except.ok r := by
  cases x with
  | error e => rw [exceptBind_error] at h; exact absurd h (by simp)
  | ok a => exact ⟨a, rfl, by rwa [exceptBind_ok] at h⟩

/-- A positive value passes `validatePositiveNumber`. -/
theorem validatePositiveNumber_pos {x : ℚ} (name : String) (h : 0 < x) :
    validatePositiveNumber x name = .ok true := by
  simp [validatePositiveNumber, not_le.mpr h]

/-- A non-positive value fails `validatePositiveNumber`. -/
theorem validatePositiveNumber_nonpos {x : ℚ} (name : String) (h : x ≤ 0) :
    validatePositiveNumber x name = .error (.nonPositive name) := by
  simp [validatePositiveNumber, h]

/-- `calculatePercentage` on a positive base and an in-range rate. -/
theorem calculatePercentage_ok {x p : ℚ} (hx : 0 < x) (h0 : 0 ≤ p) (h1 : p ≤ 1) :
    calculatePercentage x p = .ok (x * p) := by
  rw [calculatePercentage, validatePositiveNumber_pos _ hx, exceptBind_ok]
  simp [not_lt.mpr h0, not_lt.mpr h1]

/-- `calculatePercentage` rejects a non-positive base. -/
theorem calculatePercentage_nonpos {x : ℚ} (p : ℚ) (hx : x ≤ 0) :
    calculatePercentage x p = .error (.nonPositive "Base value") := by
  rw [calculatePercentage, validatePositiveNumber_nonpos _ hx, exceptBind_error]

/-- `calculatePercentage` rejects an out-of-range rate. -/
theorem calculatePercentage_bad {x p : ℚ} (hx : 0 < x) (hp : p < 0 ∨ p > 1) :
    calculatePercentage x p = .error .invalidPercentage := by
  rw [calculatePercentage, validatePositiveNumber_pos _ hx, exceptBind_ok, if_pos hp]

/-- Evaluating `jsRound` at a concrete value via the floor bounds. -/
theorem jsRound_eq {x : ℚ} {n : ℤ} (h1 : (n : ℚ) ≤ x + 1 / 2)
    (h2 : x + 1 / 2 < n + 1) : jsRound x = n := by
  rw [jsRound, Int.floor_eq_iff]
  exact ⟨h1, h2⟩

/-- Evaluating `round2` at a concrete value via the floor bounds. -/
theorem round2_eq {x : ℚ} {n : ℤ}
    (h1 : (n : ℚ) ≤ (x + PRECISION_CONFIG.EPSILON) * 100 + 1 / 2)
    (h2 : (x + PRECISION_CONFIG.EPSILON) * 100 + 1 / 2 < n + 1) :
    round2 x = n / 100 := by
  rw [round2, jsRound_eq h1 h2]

/-- `round2` is the identity on an exact multiple of `1/100`
(a 2-decimal currency value). -/
theorem round2_eq_self {x : ℚ} {n : ℤ} (hx : x * 100 = (n : ℚ)) :
    round2 x = x := by
  have h := round2_eq (x := x) (n := n) (by
    rw [add_mul, hx]
    norm_num [PRECISION_CONFIG]
    linarith) (by
    rw [add_mul, hx]
    norm_num [PRECISION_CONFIG]
    linarith)
  rw [h, ← hx]
  field_simp

/-- Distance between a value and its 2-decimal rounding: at most half a
cent plus the epsilon nudge. -/
theorem abs_round2_sub (x : ℚ) :
    |round2 x - x| ≤ 1 / 200 + PRECISION_CONFIG.EPSILON := by
  have h1 : ((⌊(x + PRECISION_CONFIG.EPSILON) * 100 + 1 / 2⌋ : ℤ) : ℚ) ≤
      (x + PRECISION_CONFIG.EPSILON) * 100 + 1 / 2 := Int.floor_le _
  have h2 : (x + PRECISION_CONFIG.EPSILON) * 100 + 1 / 2 - 1 <
      ((⌊(x + PRECISION_CONFIG.EPSILON) * 100 + 1 / 2⌋ : ℤ) : ℚ) :=
    Int.sub_one_lt_floor _
  have hE : PRECISION_CONFIG.EPSILON = 1 / 2 ^ 52 := rfl
  rw [round2, jsRound, abs_le]
  rw [hE] at h1 h2 ⊢
  constructor <;> linarith

/-- Full characterization of a successful `calculateFromSubtotal`. -/
theorem calculateFromSubtotal_eq_ok (rates : RateSet) (s : ℚ)
    (opts : CalculationOptions) (hs : 0 < s) (hv0 : 0 < rates.vatRate)
    (hv1 : rates.vatRate ≤ 1) (ht0 : 0 ≤ rates.incomeTaxRate)
    (ht1 : rates.incomeTaxRate ≤ 1) (hf0 : 0 ≤ rates.vatRetentionFraction)
    (hf1 : rates.vatRetentionFraction ≤ 1) :
    calculateFromSubtotal rates s opts = .ok
      { subtotal := s
        vatRaw := s * rates.vatRate
        incomeTaxWithheldRaw := s * rates.incomeTaxRate
        vatRetentionRaw := s * rates.vatRate * rates.vatRetentionFraction
        vat := if opts.roundPerLine then round2 (s * rates.vatRate)
          else s * rates.vatRate
        incomeTaxWithheld := if opts.roundPerLine
          then round2 (s * rates.incomeTaxRate) else s * rates.incomeTaxRate
        vatRetention := if opts.roundPerLine
          then round2 (s * rates.vatRate * rates.vatRetentionFraction)
          else s * rates.vatRate * rates.vatRetentionFraction
        netAmount := round2 (s +
          (if opts.roundPerLine then round2 (s * rates.vatRate)
            else s * rates.vatRate) -
          (if opts.roundPerLine then round2 (s * rates.incomeTaxRate)
            else s * rates.incomeTaxRate) -
          (if opts.roundPerLine
            then round2 (s * rates.vatRate * rates.vatRetentionFraction)
            else s * rates.vatRate * rates.vatRetentionFraction))
        calculationMethod := "fromSubtotal"
        options := opts } := by
  rw [calculateFromSubtotal, validatePositiveNumber_pos _ hs, exceptBind_ok,
    calculatePercentage_ok hs hv0.le hv1, exceptBind_ok,
    calculatePercentage_ok hs ht0 ht1, exceptBind_ok,
    calculatePercentage_ok (mul_pos hs hv0) hf0 hf1, exceptBind_ok]

/-- Shape facts about any successful `calculateFromSubtotal`: the result
retains the input subtotal and is tagged `fromSubtotal`. -/
theorem calculateFromSubtotal_shape {rates : RateSet} {s : ℚ}
    {opts : CalculationOptions} {r : BreakdownResult}
    (h : calculateFromSubtotal rates s opts = .ok r) :
    r.subtotal = s ∧ r.calculationMethod = "fromSubtotal" := by
  rw [calculateFromSubtotal] at h
  obtain ⟨b1, hb1, h⟩ := exceptBind_eq_ok h
  obtain ⟨vatRaw, hvr, h⟩ := exceptBind_eq_ok h
  obtain ⟨taxRaw, htr, h⟩ := exceptBind_eq_ok h
  obtain ⟨retRaw, hrr, h⟩ := exceptBind_eq_ok h
  simp only [Except.ok.injEq] at h
  rw [← h]
  exact ⟨rfl, rfl⟩

/-- Round-trip of the algebraic inverse through the breakdown without
per-line rounding: the resulting net amount is exactly `round2` of the
target. -/
theorem roundTrip_ok_spec (rates : RateSet) (N : ℚ) (hN : 0 < N)
    (hv0 : 0 < rates.vatRate) (hv1 : rates.vatRate ≤ 1)
    (ht0 : 0 ≤ rates.incomeTaxRate) (ht1 : rates.incomeTaxRate ≤ 1)
    (hf0 : 0 ≤ rates.vatRetentionFraction)
    (hf1 : rates.vatRetentionFraction ≤ 1)
    (hd : 0.000001 ≤ |denominator rates|) :
    ∃ s r, calculateSubtotalFromNetAlgebraic rates N = .ok s ∧
      calculateFromSubtotal rates s ⟨false⟩ = .ok r ∧
      r.netAmount = round2 N ∧
      |r.netAmount - N| ≤ 1 / 200 + PRECISION_CONFIG.EPSILON := by
  have hd0 : 0 ≤ denominator rates := by
    have hrw : denominator rates = (1 - rates.incomeTaxRate) +
        rates.vatRate * (1 - rates.vatRetentionFraction) := by
      rw [denominator]; ring
    rw [hrw]
    have := mul_nonneg hv0.le (sub_nonneg.mpr hf1)
    linarith
  have hdpos : 0 < denominator rates := by
    rw [abs_of_nonneg hd0] at hd
    norm_num at hd
    linarith
  have hs : 0 < N / denominator rates := div_pos hN hdpos
  have halg : calculateSubtotalFromNetAlgebraic rates N =
      .ok (N / denominator rates) := by
    rw [calculateSubtotalFromNetAlgebraic, validatePositiveNumber_pos _ hN,
      exceptBind_ok, if_neg (not_lt.mpr hd)]
  have hcalc := calculateFromSubtotal_eq_ok rates (N / denominator rates)
    ⟨false⟩ hs hv0 hv1 ht0 ht1 hf0 hf1
  have hnet : N / denominator rates +
      N / denominator rates * rates.vatRate -
      N / denominator rates * rates.incomeTaxRate -
      N / denominator rates * rates.vatRate * rates.vatRetentionFraction = N := by
    have hmul : N / denominator rates * denominator rates = N :=
      div_mul_cancel₀ _ hdpos.ne.symm
    simp only [denominator] at hmul ⊢
    linear_combination hmul
  refine ⟨N / denominator rates, _, halg, hcalc, ?_, ?_⟩
  · simp only [Bool.false_eq_true, if_false, hnet]
  · simp only [Bool.false_eq_true, if_false, hnet]
    exact abs_round2_sub N

/-
Claim theorems.
-/

/-- C1 (counterexample): the claim quantifies over rate sets with every
field in the closed interval [0,1], but at the admissible rate set with
`vatRate = 0` and subtotal 100 > 0, `calculateFromSubtotal` does not
return a `BreakdownResult` at all: the VAT amount is 0 and the VAT
retention line rejects the non-positive base. -/
theorem calculateFromSubtotal_zero_vat_not_ok :
    calculateFromSubtotal ⟨0, 0.10, 0.6666666667⟩ 100 ⟨true⟩ =
      .error (.nonPositive "Base value") := by
  rw [calculateFromSubtotal, validatePositiveNumber_pos _ (by norm_num),
    exceptBind_ok,
    calculatePercentage_ok (x := 100) (p := 0) (by norm_num) le_rfl (by norm_num),
    exceptBind_ok,
    calculatePercentage_ok (x := 100) (p := 0.10) (by norm_num) (by norm_num)
      (by norm_num),
    exceptBind_ok, calculatePercentage_nonpos _ (by norm_num), exceptBind_error]

/-- C1 (amended): for every subtotal > 0 and every rate set with
`vatRate` in (0,1] and `incomeTaxRate`, `vatRetentionFraction` each in
[0,1], `calculateFromSubtotal` returns a `BreakdownResult` with
`vatRaw = subtotal * vatRate`,
`incomeTaxWithheldRaw = subtotal * incomeTaxRate`,
`vatRetentionRaw = vatRaw * vatRetentionFraction`; each effective line
is `round2` of its raw value when `roundPerLine` is true and the raw
value otherwise; and
`netAmount = round2 (subtotal + vat - incomeTaxWithheld - vatRetention)`
in both cases. -/
theorem calculateFromSubtotal_breakdown_fields (rates : RateSet) (s : ℚ)
    (opts : CalculationOptions) (hs : 0 < s) (hv0 : 0 < rates.vatRate)
    (hv1 : rates.vatRate ≤ 1) (ht0 : 0 ≤ rates.incomeTaxRate)
    (ht1 : rates.incomeTaxRate ≤ 1) (hf0 : 0 ≤ rates.vatRetentionFraction)
    (hf1 : rates.vatRetentionFraction ≤ 1) :
    ∃ r, calculateFromSubtotal rates s opts = .ok r ∧
      r.vatRaw = s * rates.vatRate ∧
      r.incomeTaxWithheldRaw = s * rates.incomeTaxRate ∧
      r.vatRetentionRaw = r.vatRaw * rates.vatRetentionFraction ∧
      r.vat = (if opts.roundPerLine then round2 r.vatRaw else r.vatRaw) ∧
      r.incomeTaxWithheld = (if opts.roundPerLine
        then round2 r.incomeTaxWithheldRaw else r.incomeTaxWithheldRaw) ∧
      r.vatRetention = (if opts.roundPerLine
        then round2 r.vatRetentionRaw else r.vatRetentionRaw) ∧
      r.netAmount =
        round2 (r.subtotal + r.vat - r.incomeTaxWithheld - r.vatRetention) ∧
      r.subtotal = s :=
  ⟨_, calculateFromSubtotal_eq_ok rates s opts hs hv0 hv1 ht0 ht1 hf0 hf1,
    rfl, rfl, rfl, rfl, rfl, rfl, rfl, rfl⟩

/-- C1 (witness): the amended claim instantiated at the default rates,
subtotal 100 and per-line rounding. -/
theorem calculateFromSubtotal_breakdown_fields_witness :
    ∃ r, calculateFromSubtotal ⟨0.16, 0.10, 0.6666666667⟩ 100 ⟨true⟩ = .ok r ∧
      r.vatRaw = 100 * 0.16 ∧
      r.incomeTaxWithheldRaw = 100 * 0.10 ∧
      r.vatRetentionRaw = r.vatRaw * 0.6666666667 ∧
      r.vat = (if true then round2 r.vatRaw else r.vatRaw) ∧
      r.incomeTaxWithheld =
        (if true then round2 r.incomeTaxWithheldRaw else r.incomeTaxWithheldRaw) ∧
      r.vatRetention =
        (if true then round2 r.vatRetentionRaw else r.vatRetentionRaw) ∧
      r.netAmount =
        round2 (r.subtotal + r.vat - r.incomeTaxWithheld - r.vatRetention) ∧
      r.subtotal = 100 :=
  calculateFromSubtotal_breakdown_fields ⟨0.16, 0.10, 0.6666666667⟩ 100 ⟨true⟩
    (by norm_num) (by norm_num) (by norm_num) (by norm_num) (by norm_num)
    (by norm_num) (by norm_num)

/-- C2: both goal-seek loops are bounded by the configured constants:
`MAX_ATTEMPTS = 40` and `MAX_ITERATIONS = 80`; once the attempt counter
has reached `MAX_ATTEMPTS` and the bracket still does not straddle the
target, the widening loop fails with `goalSeekUnreachable` (for any
remaining fuel); and the binary-search loop stops as soon as its
iteration budget is exhausted.  Together with the fact that both loops
are accepted as terminating recursions, `goalSeekSubtotal` never loops
forever. -/
theorem goalSeek_iteration_bounds :
    GOAL_SEEK_CONFIG.MAX_ATTEMPTS = 40 ∧
    GOAL_SEEK_CONFIG.MAX_ITERATIONS = 80 ∧
    (∀ (netF : ℚ → Except CalcError ℚ) (target : ℚ) (fuel attempts : ℕ)
      (low high nLow nHigh : ℚ),
      GOAL_SEEK_CONFIG.MAX_ATTEMPTS ≤ attempts →
      ((nLow > target ∧ nHigh > target) ∨ (nLow < target ∧ nHigh < target)) →
      widenLoop netF target fuel attempts low high nLow nHigh =
        .error .goalSeekUnreachable) ∧
    (∀ (calcF : ℚ → Except CalcError BreakdownResult) (target lo hi : ℚ)
      (best : Option BreakdownResult),
      searchLoop calcF target 0 lo hi best = .ok best) := by
  refine ⟨rfl, rfl, ?_, fun _ _ _ _ _ => rfl⟩
  intro netF target fuel attempts low high nLow nHigh hA hside
  cases fuel with
  | zero => rfl
  | succ fuel =>
    rw [widenLoop, if_pos hside, if_pos (Nat.lt_succ_of_le hA)]

/-- C2 (witness): the widening loop at attempt count 40 with a
non-straddling bracket fails with `goalSeekUnreachable`, and the search
loop with no remaining iterations returns the best candidate so far. -/
theorem goalSeek_iteration_bounds_witness :
    widenLoop (fun _ => .ok 0) 5 0 40 0 1 9 9 = .error .goalSeekUnreachable ∧
    searchLoop (fun _ => .error .nullResult) 5 0 0 1 none = .ok none :=
  ⟨goalSeek_iteration_bounds.2.2.1 _ _ _ _ _ _ _ _
      (by norm_num [GOAL_SEEK_CONFIG]) (Or.inl ⟨by norm_num, by norm_num⟩),
    goalSeek_iteration_bounds.2.2.2 _ _ _ _ _⟩

/-- C3: for every positive target whose algebraic initial guess
(target divided by the non-degenerate denominator) is at most the
search-range multiplier 2000, the low bracket endpoint is clamped to 0
by `max 0 (guess - 2000)`, the breakdown at subtotal 0 fails the
positive-subtotal validation, and `goalSeekSubtotal` aborts with that
validation error (not with `goalSeekUnreachable`). -/
theorem goalSeekSubtotal_small_target_validation_error (rates : RateSet)
    (target : ℚ) (opts : CalculationOptions) (h : 0 < target)
    (hd : ¬ |denominator rates| < 0.000001)
    (hsmall : target / denominator rates ≤ 2000) :
    goalSeekSubtotal rates target opts = .error (.nonPositive "Subtotal") := by
  have halg : calculateSubtotalFromNetAlgebraic rates target =
      .ok (target / denominator rates) := by
    rw [calculateSubtotalFromNetAlgebraic, validatePositiveNumber_pos _ h,
      exceptBind_ok, if_neg hd]
  have hlow : max 0 (target / denominator rates -
      GOAL_SEEK_CONFIG.SEARCH_RANGE_MULTIPLIER) = 0 := by
    apply max_eq_left
    have hm : GOAL_SEEK_CONFIG.SEARCH_RANGE_MULTIPLIER = (2000 : ℚ) := rfl
    rw [hm]
    linarith
  have hnet : netForSubtotal rates opts 0 = .error (.nonPositive "Subtotal") := by
    rw [netForSubtotal, calculateFromSubtotal,
      validatePositiveNumber_nonpos _ le_rfl, exceptBind_error, exceptBind_error]
  rw [goalSeekSubtotal, validatePositiveNumber_pos _ h, exceptBind_ok, halg,
    exceptBind_ok]
  simp only [hlow, hnet, exceptBind_error]

/-- C3 (witness): with the default rates and target 1000 the initial
guess is about 1048.95 ≤ 2000, so goal seek aborts with the
positive-subtotal validation error. -/
theorem goalSeekSubtotal_small_target_validation_error_witness :
    goalSeekSubtotal ⟨0.16, 0.10, 0.6666666667⟩ 1000 ⟨true⟩ =
      .error (.nonPositive "Subtotal") := by
  have hdval : denominator ⟨0.16, 0.10, 0.6666666667⟩ =
      59583333333 / 62500000000 := by
    norm_num [denominator]
  have hdabs : |denominator ⟨0.16, 0.10, 0.6666666667⟩| =
      59583333333 / 62500000000 := by
    rw [hdval]
    exact abs_of_pos (by norm_num)
  exact goalSeekSubtotal_small_target_validation_error _ _ _ (by norm_num)
    (by rw [hdabs]; norm_num) (by rw [hdval]; norm_num)

/-- C4: `round2 3.145 = 3.15`, not 3.14: in the exact-rational model of
the engine the epsilon nudge is added before round-half-up, and the
two-decimal half-way value rounds upward. -/
theorem round2_of_3145 : round2 (3.145 : ℚ) = 3.15 := by
  have h := round2_eq (x := 3.145) (n := 315)
    (by norm_num [PRECISION_CONFIG]) (by norm_num [PRECISION_CONFIG])
  rw [h]; norm_num

/-- C5: for every positive target, `calculateSubtotalFromNetAlgebraic`
fails with `degenerateRates` exactly when
`|1 + vatRate - incomeTaxRate - vatRate * vatRetentionFraction| < 1e-6`,
and otherwise returns the target divided by that denominator. -/
theorem calculateSubtotalFromNetAlgebraic_cases (rates : RateSet) (N : ℚ)
    (h : 0 < N) :
    calculateSubtotalFromNetAlgebraic rates N =
      if |denominator rates| < 0.000001 then .error .degenerateRates
      else .ok (N / denominator rates) := by
  rw [calculateSubtotalFromNetAlgebraic, validatePositiveNumber_pos _ h,
    exceptBind_ok]

/-- C5 (witness): the dichotomy instantiated at the default rates and
target 100 (the denominator is not degenerate there). -/
theorem calculateSubtotalFromNetAlgebraic_cases_witness :
    calculateSubtotalFromNetAlgebraic ⟨0.16, 0.10, 0.6666666667⟩ 100 =
      if |denominator ⟨0.16, 0.10, 0.6666666667⟩| < 0.000001
      then .error .degenerateRates
      else .ok (100 / denominator ⟨0.16, 0.10, 0.6666666667⟩) :=
  calculateSubtotalFromNetAlgebraic_cases _ 100 (by norm_num)

/-- C6: whenever `goalSeekSubtotal` returns a `BreakdownResult`, that
result is tagged `goalSeek` and is exactly the breakdown recomputed
from `round2` of the best candidate subtotal found during the search
(so the returned subtotal is a 2-decimal currency value and the whole
record is the authoritative recomputation from it). -/
theorem goalSeekSubtotal_ok_is_recomputed_breakdown (rates : RateSet)
    (target : ℚ) (opts : CalculationOptions) (r : BreakdownResult)
    (h : goalSeekSubtotal rates target opts = .ok r) :
    r.calculationMethod = "goalSeek" ∧
    ∃ s, r.subtotal = round2 s ∧
      calculateFromSubtotal rates (round2 s) opts =
        .ok { r with calculationMethod := "fromSubtotal" } := by
  rw [goalSeekSubtotal] at h
  obtain ⟨b1, hb1, h⟩ := exceptBind_eq_ok h
  obtain ⟨g, hg, h⟩ := exceptBind_eq_ok h
  obtain ⟨nLow, hnl, h⟩ := exceptBind_eq_ok h
  obtain ⟨nHigh, hnh, h⟩ := exceptBind_eq_ok h
  obtain ⟨bracket, hbr, h⟩ := exceptBind_eq_ok h
  obtain ⟨best, hbe, h⟩ := exceptBind_eq_ok h
  cases best with
  | none => simp at h
  | some b =>
    simp only [] at h
    obtain ⟨final, hfin, h⟩ := exceptBind_eq_ok h
    simp only [Except.ok.injEq] at h
    obtain ⟨hsub, hmeth⟩ := calculateFromSubtotal_shape hfin
    subst h
    refine ⟨rfl, b.subtotal, hsub, ?_⟩
    obtain ⟨ra, rb, rc, rd, re, rf, rg, rh, ri, rj⟩ := final
    simp only at hmeth
    simp only [hmeth] at hfin ⊢
    exact hfin

/-- C6 (witness): a complete successful goal-seek run at rates
(1, 1, 0) and target 4000, whose returned record is tagged `goalSeek`
and is the recomputed breakdown at the rounded best subtotal 4000. -/
theorem goalSeekSubtotal_ok_is_recomputed_breakdown_witness :
    goalSeekSubtotal ⟨1, 1, 0⟩ 4000 ⟨true⟩ =
      .ok ⟨4000, 4000, 4000, 0, 4000, 4000, 0, 4000, "goalSeek", ⟨true⟩⟩ ∧
    ((⟨4000, 4000, 4000, 0, 4000, 4000, 0, 4000, "goalSeek", ⟨true⟩⟩ :
        BreakdownResult).calculationMethod = "goalSeek" ∧
      ∃ s, (⟨4000, 4000, 4000, 0, 4000, 4000, 0, 4000, "goalSeek", ⟨true⟩⟩ :
          BreakdownResult).subtotal = round2 s ∧
        calculateFromSubtotal ⟨1, 1, 0⟩ (round2 s) ⟨true⟩ =
          .ok { (⟨4000, 4000, 4000, 0, 4000, 4000, 0, 4000, "goalSeek", ⟨true⟩⟩ :
            BreakdownResult) with calculationMethod := "fromSubtotal" }) := by
  have r0 : round2 (0:ℚ) = 0 := round2_eq_self (n := 0) (by norm_num)
  have r2000 : round2 (2000:ℚ) = 2000 := round2_eq_self (n := 200000) (by norm_num)
  have r4000 : round2 (4000:ℚ) = 4000 := round2_eq_self (n := 400000) (by norm_num)
  have r6000 : round2 (6000:ℚ) = 6000 := round2_eq_self (n := 600000) (by norm_num)
  have h2000 : calculateFromSubtotal ⟨1, 1, 0⟩ 2000 ⟨true⟩ =
      .ok ⟨2000, 2000, 2000, 0, 2000, 2000, 0, 2000, "fromSubtotal", ⟨true⟩⟩ := by
    have h := calculateFromSubtotal_eq_ok ⟨1, 1, 0⟩ 2000 ⟨true⟩ (by norm_num)
      (by norm_num) (by norm_num) (by norm_num) (by norm_num) (by norm_num)
      (by norm_num)
    rw [h]
    norm_num [r2000, r0]
  have h6000 : calculateFromSubtotal ⟨1, 1, 0⟩ 6000 ⟨true⟩ =
      .ok ⟨6000, 6000, 6000, 0, 6000, 6000, 0, 6000, "fromSubtotal", ⟨true⟩⟩ := by
    have h := calculateFromSubtotal_eq_ok ⟨1, 1, 0⟩ 6000 ⟨true⟩ (by norm_num)
      (by norm_num) (by norm_num) (by norm_num) (by norm_num) (by norm_num)
      (by norm_num)
    rw [h]
    norm_num [r6000, r0]
  have h4000 : calculateFromSubtotal ⟨1, 1, 0⟩ 4000 ⟨true⟩ =
      .ok ⟨4000, 4000, 4000, 0, 4000, 4000, 0, 4000, "fromSubtotal", ⟨true⟩⟩ := by
    have h := calculateFromSubtotal_eq_ok ⟨1, 1, 0⟩ 4000 ⟨true⟩ (by norm_num)
      (by norm_num) (by norm_num) (by norm_num) (by norm_num) (by norm_num)
      (by norm_num)
    rw [h]
    norm_num [r4000, r0]
  have n2000 : netForSubtotal ⟨1, 1, 0⟩ ⟨true⟩ 2000 = .ok 2000 := by
    rw [netForSubtotal, h2000, exceptBind_ok]
  have n6000 : netForSubtotal ⟨1, 1, 0⟩ ⟨true⟩ 6000 = .ok 6000 := by
    rw [netForSubtotal, h6000, exceptBind_ok]
  have halg : calculateSubtotalFromNetAlgebraic ⟨1, 1, 0⟩ 4000 = .ok 4000 := by
    rw [calculateSubtotalFromNetAlgebraic,
      validatePositiveNumber_pos _ (by norm_num), exceptBind_ok]
    norm_num [denominator]
  have hwiden : widenLoop (netForSubtotal ⟨1, 1, 0⟩ ⟨true⟩) 4000 41 0
      2000 6000 2000 6000 = .ok (2000, 6000) := by
    rw [show (41:ℕ) = 40 + 1 from rfl, widenLoop, if_neg (by norm_num)]
  have hsearch : searchLoop (fun s => calculateFromSubtotal ⟨1, 1, 0⟩ s ⟨true⟩)
      4000 80 2000 6000 none =
      .ok (some ⟨4000, 4000, 4000, 0, 4000, 4000, 0, 4000, "fromSubtotal", ⟨true⟩⟩) := by
    rw [show (80:ℕ) = 79 + 1 from rfl, searchLoop]
    norm_num [h4000, exceptBind_ok, GOAL_SEEK_CONFIG]
  have hrun : goalSeekSubtotal ⟨1, 1, 0⟩ 4000 ⟨true⟩ =
      .ok ⟨4000, 4000, 4000, 0, 4000, 4000, 0, 4000, "goalSeek", ⟨true⟩⟩ := by
    rw [goalSeekSubtotal, validatePositiveNumber_pos _ (by norm_num), exceptBind_ok,
      halg, exceptBind_ok]
    have hl : max (0:ℚ) (4000 - GOAL_SEEK_CONFIG.SEARCH_RANGE_MULTIPLIER) = 2000 := by
      norm_num [GOAL_SEEK_CONFIG]
    have hh : (4000:ℚ) + GOAL_SEEK_CONFIG.SEARCH_RANGE_MULTIPLIER = 6000 := by
      norm_num [GOAL_SEEK_CONFIG]
    rw [hl, hh]
    simp only [n2000, n6000, exceptBind_ok,
      show GOAL_SEEK_CONFIG.MAX_ATTEMPTS + 1 = 41 from rfl, hwiden,
      show GOAL_SEEK_CONFIG.MAX_ITERATIONS = 80 from rfl]
    simp only [hsearch, exceptBind_ok, r4000, h4000]
  exact ⟨hrun, goalSeekSubtotal_ok_is_recomputed_breakdown _ _ _ _ hrun⟩

/-- C7 (counterexample): the round-trip is not exact to floating-point
tolerance.  At the default rates and target 1000.004 the recomputed net
amount is exactly 1000 (the final `round2` to currency precision),
which is 0.004 away from the target: far beyond 1e-6. -/
theorem roundTrip_beyond_fp_tolerance :
    ((calculateSubtotalFromNetAlgebraic ⟨0.16, 0.10, 0.6666666667⟩ 1000.004) >>=
      fun s => Except.map (fun r => r.netAmount)
        (calculateFromSubtotal ⟨0.16, 0.10, 0.6666666667⟩ s ⟨false⟩)) =
      .ok 1000 ∧
    (0.000001 : ℚ) < |(1000.004 : ℚ) - 1000| := by
  have hdval : denominator ⟨0.16, 0.10, 0.6666666667⟩ =
      59583333333 / 62500000000 := by
    norm_num [denominator]
  have hdabs : |denominator ⟨0.16, 0.10, 0.6666666667⟩| =
      59583333333 / 62500000000 := by
    rw [hdval]
    exact abs_of_pos (by norm_num)
  constructor
  · obtain ⟨s, r, halg, hcalc, hnet, hb⟩ :=
      roundTrip_ok_spec ⟨0.16, 0.10, 0.6666666667⟩ 1000.004 (by norm_num)
        (by norm_num) (by norm_num) (by norm_num) (by norm_num) (by norm_num)
        (by norm_num) (by rw [hdabs]; norm_num)
    rw [halg, exceptBind_ok, hcalc,
      show Except.map (fun r : BreakdownResult => r.netAmount) (.ok r) =
        .ok r.netAmount from rfl, hnet]
    have hr : round2 (1000.004 : ℚ) = 1000 := by
      have h := round2_eq (x := 1000.004) (n := 100000)
        (by norm_num [PRECISION_CONFIG]) (by norm_num [PRECISION_CONFIG])
      rw [h]; norm_num
    rw [hr]
  · have hs : (1000.004 : ℚ) - 1000 = 0.004 := by norm_num
    rw [hs, abs_of_pos (show (0:ℚ) < 0.004 by norm_num)]
    norm_num

/-- C7 (amended): for every positive target N and every rate set with
`vatRate` in (0,1], the other rates in [0,1] and a non-degenerate
denominator, the breakdown at the algebraic subtotal with per-line
rounding off has `netAmount = round2 N`: exact up to the final currency
rounding (within 1/200 plus the epsilon nudge of N, and exactly N when
N is a 2-decimal value), not merely within floating-point tolerance. -/
theorem roundTrip_netAmount_is_round2 (rates : RateSet) (N : ℚ) (hN : 0 < N)
    (hv0 : 0 < rates.vatRate) (hv1 : rates.vatRate ≤ 1)
    (ht0 : 0 ≤ rates.incomeTaxRate) (ht1 : rates.incomeTaxRate ≤ 1)
    (hf0 : 0 ≤ rates.vatRetentionFraction)
    (hf1 : rates.vatRetentionFraction ≤ 1)
    (hd : 0.000001 ≤ |denominator rates|) :
    ∃ s r, calculateSubtotalFromNetAlgebraic rates N = .ok s ∧
      calculateFromSubtotal rates s ⟨false⟩ = .ok r ∧
      r.netAmount = round2 N ∧
      |r.netAmount - N| ≤ 1 / 200 + PRECISION_CONFIG.EPSILON :=
  roundTrip_ok_spec rates N hN hv0 hv1 ht0 ht1 hf0 hf1 hd

/-- C7 (witness): the round-trip at the default rates and target 100,
where the recomputed net amount is `round2 100`. -/
theorem roundTrip_netAmount_is_round2_witness :
    ∃ s r, calculateSubtotalFromNetAlgebraic ⟨0.16, 0.10, 0.6666666667⟩ 100 =
        .ok s ∧
      calculateFromSubtotal ⟨0.16, 0.10, 0.6666666667⟩ s ⟨false⟩ = .ok r ∧
      r.netAmount = round2 100 ∧
      |r.netAmount - 100| ≤ 1 / 200 + PRECISION_CONFIG.EPSILON := by
  have hdval : denominator ⟨0.16, 0.10, 0.6666666667⟩ =
      59583333333 / 62500000000 := by
    norm_num [denominator]
  have hdabs : |denominator ⟨0.16, 0.10, 0.6666666667⟩| =
      59583333333 / 62500000000 := by
    rw [hdval]
    exact abs_of_pos (by norm_num)
  exact roundTrip_netAmount_is_round2 ⟨0.16, 0.10, 0.6666666667⟩ 100
    (by norm_num) (by norm_num) (by norm_num) (by norm_num) (by norm_num)
    (by norm_num) (by norm_num) (by rw [hdabs]; norm_num)

/-- C8 (counterexample): `round2` does not fail on the non-finite input
positive infinity: the guard only checks `isNaN`, so infinity is passed
through the arithmetic and returned as infinity. -/
theorem round2JS_posInf_not_error : round2JS .posInf = .ok .posInf := by
  simp [round2JS, JSNum.isNaN, jsAdd, jsMul, jsMathRound, jsDiv]

/-- C8 (amended): `round2` fails with the invalid-number error exactly
when its input is `NaN`; every finite input returns the rounded value
without failing, and the two infinities are propagated unchanged
without failing. -/
theorem round2JS_fails_iff_nan :
    round2JS .nan = .error (.invalidNumber "round2") ∧
    round2JS .posInf = .ok .posInf ∧
    round2JS .negInf = .ok .negInf ∧
    ∀ q : ℚ, round2JS (.num q) = .ok (.num (round2 q)) := by
  refine ⟨rfl, ?_, ?_, ?_⟩
  · simp [round2JS, JSNum.isNaN, jsAdd, jsMul, jsMathRound, jsDiv]
  · simp [round2JS, JSNum.isNaN, jsAdd, jsMul, jsMathRound, jsDiv]
  · intro q
    simp [round2JS, JSNum.isNaN, jsAdd, jsMul, jsMathRound, jsDiv, round2, jsRound]

/-- C9: constructing a calculator with an explicit zero rate field
yields the corresponding default (0.16, 0.10 or 0.6666666667) instead
of 0, because `x || default` treats 0 as falsy; consequently no rate
field of a constructed rate set can ever be 0. -/
theorem constructor_zero_fields_yield_defaults :
    (TaxCalculator.constructor ⟨some 0, none, none⟩).vatRate = 0.16 ∧
    (TaxCalculator.constructor ⟨none, some 0, none⟩).incomeTaxRate = 0.10 ∧
    (TaxCalculator.constructor ⟨none, none, some 0⟩).vatRetentionFraction =
      0.6666666667 ∧
    ∀ p : PartialRates,
      (TaxCalculator.constructor p).vatRate ≠ 0 ∧
      (TaxCalculator.constructor p).incomeTaxRate ≠ 0 ∧
      (TaxCalculator.constructor p).vatRetentionFraction ≠ 0 := by
  have key : ∀ (x : Option ℚ) (d : ℚ), d ≠ 0 → jsOrDefault x d ≠ 0 := by
    intro x d hd
    cases x with
    | none => exact hd
    | some v =>
      show (if v = 0 then d else v) ≠ 0
      split_ifs with hv
      · exact hd
      · exact hv
  refine ⟨by norm_num [TaxCalculator.constructor, jsOrDefault],
    by norm_num [TaxCalculator.constructor, jsOrDefault],
    by norm_num [TaxCalculator.constructor, jsOrDefault],
    fun p => ⟨key _ _ (by norm_num), key _ _ (by norm_num),
      key _ _ (by norm_num)⟩⟩

/-- C9 (witness): the no-zero-rate consequence instantiated at a
concrete partial-rates argument. -/
theorem constructor_zero_fields_yield_defaults_witness :
    (TaxCalculator.constructor ⟨some (1/2), none, some (3/4)⟩).vatRate ≠ 0 ∧
    (TaxCalculator.constructor ⟨some (1/2), none, some (3/4)⟩).incomeTaxRate ≠ 0 ∧
    (TaxCalculator.constructor
      ⟨some (1/2), none, some (3/4)⟩).vatRetentionFraction ≠ 0 :=
  constructor_zero_fields_yield_defaults.2.2.2 _

/-- C10: `updateRates` accepts an explicit 0 and retains unspecified
fields, so a rate set with `vatRate = 0` is reachable; on any such rate
set `calculateFromSubtotal` throws for every positive subtotal and every
options value (the VAT amount is 0 and the VAT retention line rejects
the non-positive base), so no breakdown with a zero VAT rate is ever
produced. -/
theorem calculateFromSubtotal_zero_vatRate_always_errors :
    (∀ r0 : RateSet, updateRates r0 ⟨some 0, none, none⟩ =
      ⟨0, r0.incomeTaxRate, r0.vatRetentionFraction⟩) ∧
    (∀ (rates : RateSet) (s : ℚ) (opts : CalculationOptions),
      rates.vatRate = 0 → 0 < s →
      ∃ e, calculateFromSubtotal rates s opts = .error e) ∧
    (∀ (rates : RateSet) (s : ℚ) (opts : CalculationOptions),
      rates.vatRate = 0 → 0 < s → 0 ≤ rates.incomeTaxRate →
      rates.incomeTaxRate ≤ 1 →
      calculateFromSubtotal rates s opts = .error (.nonPositive "Base value")) := by
  have spec : ∀ (rates : RateSet) (s : ℚ) (opts : CalculationOptions),
      rates.vatRate = 0 → 0 < s → 0 ≤ rates.incomeTaxRate →
      rates.incomeTaxRate ≤ 1 →
      calculateFromSubtotal rates s opts = .error (.nonPositive "Base value") := by
    intro rates s opts hz hs ht0 ht1
    rw [calculateFromSubtotal, validatePositiveNumber_pos _ hs, exceptBind_ok, hz,
      calculatePercentage_ok hs le_rfl (by norm_num), exceptBind_ok,
      calculatePercentage_ok hs ht0 ht1, exceptBind_ok,
      calculatePercentage_nonpos _ (by rw [mul_zero]), exceptBind_error]
  refine ⟨fun r0 => rfl, ?_, spec⟩
  intro rates s opts hz hs
  by_cases ht : rates.incomeTaxRate < 0 ∨ rates.incomeTaxRate > 1
  · refine ⟨.invalidPercentage, ?_⟩
    rw [calculateFromSubtotal, validatePositiveNumber_pos _ hs, exceptBind_ok, hz,
      calculatePercentage_ok hs le_rfl (by norm_num), exceptBind_ok,
      calculatePercentage_bad hs ht, exceptBind_error]
  · push_neg at ht
    exact ⟨_, spec rates s opts hz hs ht.1 ht.2⟩

/-- C10 (witness): updating the VAT rate to 0 is accepted and retains
the other fields, and the breakdown at subtotal 5 then fails with the
base-value validation error. -/
theorem calculateFromSubtotal_zero_vatRate_always_errors_witness :
    updateRates ⟨0.5, 0.10, 0.6666666667⟩ ⟨some 0, none, none⟩ =
      ⟨0, 0.10, 0.6666666667⟩ ∧
    calculateFromSubtotal ⟨0, 0.10, 0.6666666667⟩ 5 ⟨true⟩ =
      .error (.nonPositive "Base value") :=
  ⟨calculateFromSubtotal_zero_vatRate_always_errors.1 _,
    calculateFromSubtotal_zero_vatRate_always_errors.2.2 _ 5 ⟨true⟩ rfl
      (by norm_num) (by norm_num) (by norm_num)⟩

end CFDI
